import Mathlib

/-!
# Verification of AgriCoreDynamics_appv2

A shallow embedding of the repository's core logic:

* the payload decoders and `SensorData` constructors of the two
  `connectToESP32` variants in `src/app3.0/src/utils/bluetooth.ts`
  (a notify-only variant and a notify-with-readValue-fallback variant);
* the acquisition race of each variant, modelled as a state machine driven
  by a list of event-loop dispatches (notification events and the timer
  firing), with the surrounding connection phase modelled by a scenario
  record of transport outcomes;
* the crop rule table of the configuration file (`src/unnamed/part_000`)
  together with a rule engine modelled from the spec (the engine's own code
  is not part of the provided sources).

Machine bytes are modelled as `Nat` (a `DataView` byte is in `[0,255]`;
the decoders only move bytes around, so no overflow arises).  Fractional
agronomic thresholds (pH 6.5 and friends) are modelled as `ℚ`; every value
involved is an exact binary fraction, so this coincides with the source's
float arithmetic, which performs only comparisons here.
-/

namespace AgriCore

/-- Sensor snapshot record: the `SensorData` interface declared (twice,
identically) in `src/app3.0/src/utils/bluetooth.ts`.  In the modelled code
paths every channel receives a byte value, so fields are `Nat`. -/
structure SensorData where
  pH : Nat
  moisture : Nat
  tds : Nat
  nitrogen : Nat
  phosphorus : Nat
  potassium : Nat
  deriving Repr, DecidableEq

/-- Stages of the acquisition at which the transport can fail. -/
inductive Stage
  | request
  | connect
  | service
  | characteristic
  | subscribe
  | read
  deriving Repr, DecidableEq

/-- Error identities of the acquisition client.  `unsupported`,
`transport`, `invalidPayload` and `noData` correspond to the `Error`
values the code throws (the two variants use different message strings for
an invalid payload; both are modelled by `invalidPayload` carrying the
offending length, and the notify-only variant's timeout error
"No data received from ESP32" is `noData`).  `acquisitionTimeout` is the
wrapper from the spec's error taxonomy (§7): the code model never
constructs it; it exists so that claims about it can be stated. -/
inductive BTError
  | unsupported
  | transport (stage : Stage)
  | invalidPayload (len : Nat)
  | noData
  | acquisitionTimeout (cause : BTError)
  deriving Repr, DecidableEq

/-- Whether an error is the spec taxonomy's `AcquisitionTimeout` wrapper. -/
def BTError.isAcquisitionTimeout : BTError → Bool
  | .acquisitionTimeout _ => true
  | _ => false

instance {ε α : Type} [DecidableEq ε] [DecidableEq α] :
    DecidableEq (Except ε α) := fun
  | .ok a, .ok b =>
      if h : a = b then isTrue (by rw [h])
      else isFalse (by intro hc; cases hc; exact h rfl)
  | .ok _, .error _ => isFalse (by intro hc; cases hc)
  | .error _, .ok _ => isFalse (by intro hc; cases hc)
  | .error e, .error f =>
      if h : e = f then isTrue (by rw [h])
      else isFalse (by intro hc; cases hc; exact h rfl)

/-- `DataView.getUint8(i)` on a byte buffer modelled as a list; both call
sites guard the index against the buffer length first. -/
def getUint8 (value : List Nat) (i : Nat) : Nat :=
  value.getD i 0

/-- `parsePayload` of the notify-only variant (bluetooth.ts lines 42-51):
rejects any buffer whose length differs from 2, otherwise returns the pair
(moisture, ec) of the first two bytes. -/
def parsePayload (value : List Nat) : Except BTError (Nat × Nat) :=
  if value.length ≠ 2 then
    .error (.invalidPayload value.length)
  else
    .ok (getUint8 value 0, getUint8 value 1)

/-- `parse2Bytes` of the fallback variant (bluetooth.ts lines 153-160):
rejects only buffers SHORTER than 2 bytes (`byteLength < 2`), otherwise
returns the first two bytes. -/
def parse2Bytes (value : List Nat) : Except BTError (Nat × Nat) :=
  if value.length < 2 then
    .error (.invalidPayload value.length)
  else
    .ok (getUint8 value 0, getUint8 value 1)

/-- `toSensorData` of the notify-only variant (bluetooth.ts lines 25-34):
pH is a fixed 0 placeholder, moisture passes through, and the single EC
channel populates tds, nitrogen, phosphorus and potassium. -/
def toSensorData (moisture ec : Nat) : SensorData :=
  { pH := 0
    moisture := moisture
    tds := ec
    nitrogen := ec
    phosphorus := ec
    potassium := ec }

/-- `bytesToSensorData` of the fallback variant (bluetooth.ts lines
139-151); textually the same mapping as `toSensorData`. -/
def bytesToSensorData (moisture ec : Nat) : SensorData :=
  { pH := 0
    moisture := moisture
    tds := ec
    nitrogen := ec
    phosphorus := ec
    potassium := ec }

/-- The notify-only variant's decode pipeline: `parsePayload` followed by
`toSensorData`, as composed in its notification handler (lines 93-97). -/
def decodePipelineV1 (bytes : List Nat) : Except BTError SensorData :=
  (parsePayload bytes).map (fun p => toSensorData p.1 p.2)

/-- The fallback variant's decode pipeline: `parse2Bytes` followed by
`bytesToSensorData`, as composed in its handler and fallback read (lines
197-201 and 223-227). -/
def decodePipelineV2 (bytes : List Nat) : Except BTError SensorData :=
  (parse2Bytes bytes).map (fun p => bytesToSensorData p.1 p.2)

/-- One event-loop dispatch during the racing phase: either a
`characteristicvaluechanged` event fires (carrying the characteristic's
current value, which may be absent, i.e. `!ch.value`), or the `setTimeout`
timer fires.  Both variants' callbacks are dispatched sequentially on a
single-threaded event loop, so one acquisition is a list of these. -/
inductive Ev
  | notify (v : Option (List Nat))
  | timerFire
  deriving Repr, DecidableEq

/-- State of the notify-only variant's promise executor (bluetooth.ts
lines 82-120).  `handlerRegistered` tracks the `characteristicvaluechanged`
listener, `timerActive` tracks whether the `setTimeout` timer is still
pending (cleared timers never fire, fired timers never fire again),
`connected`/`disconnects` observe the GATT link, `resolveCalls` and
`rejectCalls` count every invocation of the executor's `resolve`/`reject`,
and `settled` is the promise's outcome (first settle wins, later calls are
inert, as in the host promise semantics). -/
structure V1State where
  handlerRegistered : Bool
  timerActive : Bool
  connected : Bool
  disconnects : Nat
  resolveCalls : Nat
  rejectCalls : Nat
  settled : Option (Except BTError SensorData)
  deriving Repr, DecidableEq

/-- The `cleanup` closure of the notify-only variant (lines 104-114):
clear the timeout, remove the notification listener, and, if the device
still reports itself connected, disconnect. -/
def cleanup1 (s : V1State) : V1State :=
  let s := { s with timerActive := false, handlerRegistered := false }
  if s.connected then
    { s with connected := false, disconnects := s.disconnects + 1 }
  else
    s

/-- A call of the executor's `resolve`: counted always, effective only if
the promise is not yet settled. -/
def resolve1 (d : SensorData) (s : V1State) : V1State :=
  { s with
    resolveCalls := s.resolveCalls + 1
    settled := if s.settled.isNone then some (.ok d) else s.settled }

/-- A call of the executor's `reject`: counted always, effective only if
the promise is not yet settled. -/
def reject1 (e : BTError) (s : V1State) : V1State :=
  { s with
    rejectCalls := s.rejectCalls + 1
    settled := if s.settled.isNone then some (.error e) else s.settled }

/-- One event dispatch against the notify-only variant's executor.
The timer callback (lines 83-86) runs `cleanup(); reject(...)`; it can only
run while the timer is still pending.  The notification handler (lines
88-102) only runs while the listener is registered; it returns early on an
absent value, and otherwise decodes, runs `cleanup()`, and resolves, or on
a decode error runs `cleanup()` and rejects. -/
def step1 (s : V1State) (e : Ev) : V1State :=
  match e with
  | .timerFire =>
      if s.timerActive then reject1 .noData (cleanup1 s) else s
  | .notify v =>
      if s.handlerRegistered then
        match v with
        | none => s
        | some bytes =>
            match parsePayload bytes with
            | .ok p => resolve1 (toSensorData p.1 p.2) (cleanup1 s)
            | .error err => reject1 err (cleanup1 s)
      else s

/-- Executor state right after `startNotifications` succeeded and the
promise executor ran (listener registered, timer armed, link connected). -/
def V1State.init : V1State :=
  { handlerRegistered := true
    timerActive := true
    connected := true
    disconnects := 0
    resolveCalls := 0
    rejectCalls := 0
    settled := none }

/-- The racing phase of the notify-only variant: dispatch a list of
events from the initial executor state. -/
def run1 (events : List Ev) : V1State :=
  events.foldl step1 V1State.init

/-- Environment of one notify-only `connectToESP32` call: whether each
sequential transport stage succeeds, and the event dispatches of the
racing phase. -/
structure Scenario1 where
  btAvailable : Bool
  requestOk : Bool
  connectOk : Bool
  serviceOk : Bool
  charOk : Bool
  notifyOk : Bool
  events : List Ev
  deriving Repr, DecidableEq

/-- Observable outcome of a notify-only `connectToESP32` call.  `result`
is `none` while the returned promise is still pending. -/
structure V1Outcome where
  result : Option (Except BTError SensorData)
  connected : Bool
  disconnects : Nat
  resolveCalls : Nat
  rejectCalls : Nat
  deriving Repr, DecidableEq

/-- The notify-only `connectToESP32` (bluetooth.ts lines 57-121).  The
sequential awaits (`requestDevice`, `gatt.connect`, `getPrimaryService`,
`getCharacteristic`, `startNotifications`) have no surrounding
`try`/`finally`: a failure after the link came up leaves it connected.
Once subscribed, the returned promise's outcome is the racing phase's. -/
def connectToESP32_v1 (sc : Scenario1) : V1Outcome :=
  if !sc.btAvailable then
    { result := some (.error .unsupported), connected := false,
      disconnects := 0, resolveCalls := 0, rejectCalls := 0 }
  else if !sc.requestOk then
    { result := some (.error (.transport .request)), connected := false,
      disconnects := 0, resolveCalls := 0, rejectCalls := 0 }
  else if !sc.connectOk then
    { result := some (.error (.transport .connect)), connected := false,
      disconnects := 0, resolveCalls := 0, rejectCalls := 0 }
  else if !sc.serviceOk then
    { result := some (.error (.transport .service)), connected := true,
      disconnects := 0, resolveCalls := 0, rejectCalls := 0 }
  else if !sc.charOk then
    { result := some (.error (.transport .characteristic)), connected := true,
      disconnects := 0, resolveCalls := 0, rejectCalls := 0 }
  else if !sc.notifyOk then
    { result := some (.error (.transport .subscribe)), connected := true,
      disconnects := 0, resolveCalls := 0, rejectCalls := 0 }
  else
    let s := run1 sc.events
    { result := s.settled, connected := s.connected,
      disconnects := s.disconnects, resolveCalls := s.resolveCalls,
      rejectCalls := s.rejectCalls }

/-- All transport stages of a notify-only scenario succeed. -/
def goodTransport1 (sc : Scenario1) : Prop :=
  sc.btAvailable = true ∧ sc.requestOk = true ∧ sc.connectOk = true ∧
  sc.serviceOk = true ∧ sc.charOk = true ∧ sc.notifyOk = true

/-- Characterization of the reachable executor states of the notify-only
variant: while pending, the listener is registered, the timer armed, the
link up, and nothing was called; once settled, everything was cleaned up,
the link was dropped exactly once, and exactly one of `resolve`/`reject`
was ever called. -/
def V1Inv (s : V1State) : Prop :=
  match s.settled with
  | none =>
      s.handlerRegistered = true ∧ s.timerActive = true ∧
      s.connected = true ∧ s.disconnects = 0 ∧
      s.resolveCalls = 0 ∧ s.rejectCalls = 0
  | some _ =>
      s.handlerRegistered = false ∧ s.timerActive = false ∧
      s.connected = false ∧ s.disconnects = 1 ∧
      s.resolveCalls + s.rejectCalls = 1

/-- Winner of the fallback variant's `Promise.race([notifPromise,
timeoutPromise])`: either the notification promise's decoded value, or the
timeout promise's "timeout" marker. -/
inductive RaceWinner
  | value (d : SensorData)
  | timedOut
  deriving Repr, DecidableEq

/-- State of the fallback variant's racing phase (bluetooth.ts lines
191-219).  `handlerRegistered` tracks the `characteristicvaluechanged`
listener, `notifSettled` the settlement of `notifPromise`,
`timeoutSettled` that of `timeoutPromise`, and `winner` the race's
settlement (first settle wins).  `handlerRuns` counts invocations of the
notification handler, and `swallowed` counts decode errors thrown inside
the event listener, where the event loop swallows them (a `throw` in a
listener rejects no promise). -/
structure V2Race where
  handlerRegistered : Bool
  notifSettled : Option SensorData
  timeoutSettled : Bool
  winner : Option RaceWinner
  handlerRuns : Nat
  swallowed : Nat
  deriving Repr, DecidableEq

/-- Settle `Promise.race`: effective only if it has not settled yet. -/
def settleRace (w : RaceWinner) (s : V2Race) : V2Race :=
  if s.winner.isNone then { s with winner := some w } else s

/-- One event dispatch against the fallback variant's racing phase.
The timer callback (lines 211-213) resolves `timeoutPromise` (a fired
timer cannot fire again; re-settling is inert anyway).  The handler (lines
192-206) only runs while registered; it returns early on an absent value;
on a decodable value it unregisters itself and resolves `notifPromise`;
on a decode error it unregisters itself and rethrows — the rethrow is
swallowed by the event loop and settles nothing. -/
def step2 (s : V2Race) (e : Ev) : V2Race :=
  match e with
  | .timerFire =>
      if s.timeoutSettled then s
      else settleRace .timedOut { s with timeoutSettled := true }
  | .notify v =>
      if s.handlerRegistered then
        let s := { s with handlerRuns := s.handlerRuns + 1 }
        match v with
        | none => s
        | some bytes =>
            match parse2Bytes bytes with
            | .ok p =>
                let d := bytesToSensorData p.1 p.2
                let s := { s with handlerRegistered := false }
                if s.notifSettled.isNone then
                  settleRace (.value d) { s with notifSettled := some d }
                else s
            | .error _ =>
                { s with handlerRegistered := false,
                         swallowed := s.swallowed + 1 }
      else s

/-- Racing-phase state right after `startNotifications` succeeded, the
listener was registered and the timer armed. -/
def V2Race.init : V2Race :=
  { handlerRegistered := true
    notifSettled := none
    timeoutSettled := false
    winner := none
    handlerRuns := 0
    swallowed := 0 }

/-- The racing phase of the fallback variant: dispatch a list of events
from the initial state. -/
def run2 (events : List Ev) : V2Race :=
  events.foldl step2 V2Race.init

/-- The fallback `readValue()` path (lines 223-227): one pull-style read;
a transport failure propagates unchanged (the code wraps nothing), and its
payload goes through `parse2Bytes` / `bytesToSensorData`. -/
def fallbackRead (r : Except BTError (List Nat)) : Except BTError SensorData :=
  match r with
  | .error e => .error e
  | .ok bytes =>
      match parse2Bytes bytes with
      | .error e => .error e
      | .ok p => .ok (bytesToSensorData p.1 p.2)

/-- Environment of one fallback-variant `connectToESP32` call: the
transport stages, the racing-phase events, and the outcome the transport
would give a `readValue()` pull. -/
structure Scenario2 where
  btAvailable : Bool
  requestOk : Bool
  connectOk : Bool
  serviceOk : Bool
  charOk : Bool
  notifyOk : Bool
  events : List Ev
  readResult : Except BTError (List Nat)
  deriving Repr, DecidableEq

/-- Observable outcome of a fallback-variant `connectToESP32` call.
`result` is `none` while the call is still pending; `reads` counts
`readValue()` invocations; `handlerRegistered`, `handlerRuns` and
`swallowed` expose the racing-phase instrumentation. -/
structure V2Outcome where
  result : Option (Except BTError SensorData)
  connected : Bool
  disconnects : Nat
  reads : Nat
  handlerRegistered : Bool
  handlerRuns : Nat
  swallowed : Nat
  deriving Repr, DecidableEq

/-- The continuation after `await Promise.race` (lines 215-227) plus the
`finally` block (lines 228-234): a non-timeout winner is returned as is;
on timeout, one `readValue()` pull decides the outcome; in both cases the
`finally` disconnects (the link is up here, so `device.gatt?.connected`
holds).  While the race is unsettled the call is pending: the `finally`
has not run and the link stays up. -/
def raceOutcome (s : V2Race) (readResult : Except BTError (List Nat)) :
    V2Outcome :=
  match s.winner with
  | some (.value d) =>
      { result := some (.ok d), connected := false, disconnects := 1,
        reads := 0, handlerRegistered := s.handlerRegistered,
        handlerRuns := s.handlerRuns, swallowed := s.swallowed }
  | some .timedOut =>
      { result := some (fallbackRead readResult), connected := false,
        disconnects := 1, reads := 1,
        handlerRegistered := s.handlerRegistered,
        handlerRuns := s.handlerRuns, swallowed := s.swallowed }
  | none =>
      { result := none, connected := true, disconnects := 0, reads := 0,
        handlerRegistered := s.handlerRegistered,
        handlerRuns := s.handlerRuns, swallowed := s.swallowed }

/-- The fallback-variant `connectToESP32` (bluetooth.ts lines 166-235).
`requestDevice` and `gatt.connect` happen before the `try`; everything
from `getPrimaryService` on sits inside `try ... finally disconnect`. -/
def connectToESP32_v2 (sc : Scenario2) : V2Outcome :=
  if !sc.btAvailable then
    { result := some (.error .unsupported), connected := false,
      disconnects := 0, reads := 0, handlerRegistered := false,
      handlerRuns := 0, swallowed := 0 }
  else if !sc.requestOk then
    { result := some (.error (.transport .request)), connected := false,
      disconnects := 0, reads := 0, handlerRegistered := false,
      handlerRuns := 0, swallowed := 0 }
  else if !sc.connectOk then
    { result := some (.error (.transport .connect)), connected := false,
      disconnects := 0, reads := 0, handlerRegistered := false,
      handlerRuns := 0, swallowed := 0 }
  else if !sc.serviceOk then
    { result := some (.error (.transport .service)), connected := false,
      disconnects := 1, reads := 0, handlerRegistered := false,
      handlerRuns := 0, swallowed := 0 }
  else if !sc.charOk then
    { result := some (.error (.transport .characteristic)),
      connected := false, disconnects := 1, reads := 0,
      handlerRegistered := false, handlerRuns := 0, swallowed := 0 }
  else if !sc.notifyOk then
    { result := some (.error (.transport .subscribe)), connected := false,
      disconnects := 1, reads := 0, handlerRegistered := false,
      handlerRuns := 0, swallowed := 0 }
  else
    raceOutcome (run2 sc.events) sc.readResult

/-- All transport stages of a fallback-variant scenario succeed. -/
def goodTransport2 (sc : Scenario2) : Prop :=
  sc.btAvailable = true ∧ sc.requestOk = true ∧ sc.connectOk = true ∧
  sc.serviceOk = true ∧ sc.charOk = true ∧ sc.notifyOk = true

/-- The racing-phase observables that drive the call's outcome: everything
except the `handlerRuns` instrumentation counter. -/
structure V2Obs where
  handlerRegistered : Bool
  notifSettled : Option SensorData
  timeoutSettled : Bool
  winner : Option RaceWinner
  swallowed : Nat
  deriving Repr, DecidableEq

/-- Project the racing-phase state to its outcome-driving observables. -/
def V2Race.obs (s : V2Race) : V2Obs :=
  { handlerRegistered := s.handlerRegistered
    notifSettled := s.notifSettled
    timeoutSettled := s.timeoutSettled
    winner := s.winner
    swallowed := s.swallowed }

/-- Invariant of the fallback race: a settled timeout promise means the
race has a winner (`Promise.race` settles with the first settler). -/
def V2Inv (s : V2Race) : Prop :=
  s.timeoutSettled = true → s.winner.isSome = true

/-- The spec's `SensorReading` as consumed by the rule engine: numeric
soil channels plus nothing else (weather and season travel separately as
context).  Values are `ℚ` since thresholds such as pH 6.5 are
fractional. -/
structure SoilReading where
  pH : ℚ
  moisture : ℚ
  tds : ℚ
  nitrogen : ℚ
  phosphorus : ℚ
  potassium : ℚ
  deriving Repr, DecidableEq

/-- One rule's condition set, mirroring the keys the rule engine
recognizes in `CROP_RECOMMENDATIONS.rules[..].conditions`
(src/unnamed/part_000): optional lower/upper pH bounds, optional minimums
for moisture/N/P/K, an optional allowed-weather set and an optional
allowed-season set.  An absent entry is a wildcard. -/
structure RuleConditions where
  pHMin : Option ℚ
  pHMax : Option ℚ
  moistureMin : Option ℚ
  nMin : Option ℚ
  pMin : Option ℚ
  kMin : Option ℚ
  dominantWeather : Option (List String)
  season : Option (List String)
  deriving Repr, DecidableEq

/-- One entry of `CROP_RECOMMENDATIONS.rules`: the (English) crop name
set and the condition set.  The localized crop name lists exist in the
source data but carry no logic, so they are not modelled. -/
structure CropRule where
  crops : List String
  conditions : RuleConditions
  deriving Repr, DecidableEq

/-- Modelled from the spec: the rule engine's own code is absent from the
provided sources (only its rule configuration is present).  Spec §4.4: a
rule matches iff every present bound in its condition set is satisfied —
numeric bounds inclusive on both ends, weather/season satisfied iff the
context value is a member of the rule's allowed set — and an absent bound
or set is a wildcard. -/
def condMatches (c : RuleConditions) (r : SoilReading)
    (weather season : String) : Bool :=
  (match c.pHMin with
    | none => true
    | some b => decide (b ≤ r.pH)) &&
  (match c.pHMax with
    | none => true
    | some b => decide (r.pH ≤ b)) &&
  (match c.moistureMin with
    | none => true
    | some b => decide (b ≤ r.moisture)) &&
  (match c.nMin with
    | none => true
    | some b => decide (b ≤ r.nitrogen)) &&
  (match c.pMin with
    | none => true
    | some b => decide (b ≤ r.phosphorus)) &&
  (match c.kMin with
    | none => true
    | some b => decide (b ≤ r.potassium)) &&
  (match c.dominantWeather with
    | none => true
    | some ws => ws.contains weather) &&
  (match c.season with
    | none => true
    | some ss => ss.contains season)

/-- Modelled from the spec: the rule engine's own code is absent from the
provided sources.  Spec §4.4: iterate the declared rule list in fixed
order, return the FIRST matching rule's crop set, and return the
configured default crop set only when no rule matches. -/
def recommend (rules : List CropRule) (dflt : List String)
    (r : SoilReading) (weather season : String) : List String :=
  match rules.find? (fun rule => condMatches rule.conditions r weather season) with
  | some rule => rule.crops
  | none => dflt

/-- Rule 1 of `CROP_RECOMMENDATIONS.rules` (src/unnamed/part_000 lines
90-103): Wheat/Maize/Corn. -/
def wheatRule : CropRule :=
  { crops := ["Wheat", "Maize", "Corn"]
    conditions :=
      { pHMin := some 6.0, pHMax := some 8.5, moistureMin := none
        nMin := some 50, pMin := some 30, kMin := some 50
        dominantWeather := some ["sunny", "cloudy"]
        season := some ["rabi", "kharif"] } }

/-- Rule 2 (lines 104-118): Rice/Paddy. -/
def riceRule : CropRule :=
  { crops := ["Rice", "Paddy"]
    conditions :=
      { pHMin := some 5.5, pHMax := some 7.5, moistureMin := some 50
        nMin := some 40, pMin := some 25, kMin := some 40
        dominantWeather := some ["rainy", "humid"]
        season := some ["kharif"] } }

/-- Rule 3 (lines 119-132): Chickpea/Lentil/Peas. -/
def chickpeaRule : CropRule :=
  { crops := ["Chickpea", "Lentil", "Peas"]
    conditions :=
      { pHMin := some 6.0, pHMax := some 8.0, moistureMin := none
        nMin := some 20, pMin := some 25, kMin := some 25
        dominantWeather := some ["cloudy", "windy", "sunny"]
        season := some ["rabi"] } }

/-- Rule 4 (lines 133-146): Cotton/Soybean. -/
def cottonRule : CropRule :=
  { crops := ["Cotton", "Soybean"]
    conditions :=
      { pHMin := some 6.0, pHMax := some 8.0, moistureMin := none
        nMin := some 45, pMin := some 30, kMin := some 45
        dominantWeather := some ["sunny", "humid"]
        season := some ["kharif"] } }

/-- Rule 5 (lines 147-160): Sugarcane.  The source writes its phosphorus
bound under the misspelled key `pMIn`, which the engine does not recognize
(spec §4.4: the engine evaluates only the bounds it recognizes by name),
so the rule carries no effective `pMin`; it also declares no season. -/
def sugarcaneRule : CropRule :=
  { crops := ["Sugarcane"]
    conditions :=
      { pHMin := some 6.0, pHMax := some 8.5, moistureMin := some 50
        nMin := some 65, pMin := none, kMin := some 65
        dominantWeather := some ["sunny", "humid", "rainy"]
        season := none } }

/-- Rule 6 (lines 161-174): Potato/Vegetables. -/
def potatoRule : CropRule :=
  { crops := ["Potato", "Vegetables"]
    conditions :=
      { pHMin := some 5.5, pHMax := some 7.0, moistureMin := none
        nMin := some 40, pMin := some 35, kMin := some 40
        dominantWeather := some ["cloudy", "sunny"]
        season := some ["rabi", "zaid"] } }

/-- The declared rule order of `CROP_RECOMMENDATIONS.rules`. -/
def cropRules : List CropRule :=
  [wheatRule, riceRule, chickpeaRule, cottonRule, sugarcaneRule, potatoRule]

/-- `CROP_RECOMMENDATIONS.default.cropsEn` (lines 178-182). -/
def defaultCropsEn : List String :=
  ["General Crops", "Vegetables"]

/-- The concrete reading of the spec's rule-engine scenario:
pH 6.5, moisture 55, nitrogen 60, phosphorus 35, potassium 55 (tds is not
consulted by any rule; the scenario leaves it unspecified, here 0). -/
def scenarioReading : SoilReading :=
  { pH := 6.5, moisture := 55, tds := 0
    nitrogen := 60, phosphorus := 35, potassium := 55 }

end AgriCore

namespace AgriCore

/-- C3 counterexample: `parse2Bytes` SUCCEEDS on the 3-byte buffer
`[1, 2, 3]`, returning the first two bytes, whereas the claim demands that
every decoder fail on any length other than 2. -/
theorem c3_counterexample :
    parse2Bytes [1, 2, 3] = .ok (1, 2) := by
  rfl

/-- C3 (amended): `parsePayload` succeeds exactly on length-2 buffers and
fails with an invalid-payload error on every other length; `parse2Bytes`
fails only on buffers shorter than 2 bytes and succeeds on every buffer of
length at least 2, reading the first two bytes. -/
theorem c3_theorem (bytes : List Nat) :
    (bytes.length = 2 →
      parsePayload bytes = .ok (getUint8 bytes 0, getUint8 bytes 1)) ∧
    (bytes.length ≠ 2 →
      parsePayload bytes = .error (.invalidPayload bytes.length)) ∧
    (bytes.length < 2 →
      parse2Bytes bytes = .error (.invalidPayload bytes.length)) ∧
    (2 ≤ bytes.length →
      parse2Bytes bytes = .ok (getUint8 bytes 0, getUint8 bytes 1)) := by
  refine ⟨fun h => ?_, fun h => ?_, fun h => ?_, fun h => ?_⟩
  · simp [parsePayload, h]
  · simp [parsePayload, h]
  · simp [parse2Bytes, h]
  · simp [parse2Bytes, Nat.not_lt.mpr h]

/-- C3 witness: both decoders evaluated on concrete buffers of length 2,
1 and 3 through `c3_theorem`. -/
theorem c3_witness :
    parsePayload [5, 6] = .ok (5, 6) ∧
    parsePayload [5, 6, 7] = .error (.invalidPayload 3) ∧
    parse2Bytes [5] = .error (.invalidPayload 1) ∧
    parse2Bytes [5, 6] = .ok (5, 6) :=
  ⟨(c3_theorem [5, 6]).1 rfl,
   (c3_theorem [5, 6, 7]).2.1 (by decide),
   (c3_theorem [5]).2.2.1 (by decide),
   (c3_theorem [5, 6]).2.2.2 (by decide)⟩

/-- C4: for all byte values m, e in [0,255], decoding the 2-byte buffer
[m, e] succeeds, and the resulting reading has moisture = m,
tds = nitrogen = phosphorus = potassium = e, and pH = 0, under both
variants' constructors. -/
theorem c4_theorem (m e : Nat) (hm : m ≤ 255) (he : e ≤ 255) :
    decodePipelineV1 [m, e] = .ok (toSensorData m e) ∧
    (toSensorData m e).moisture = m ∧
    (toSensorData m e).tds = e ∧
    (toSensorData m e).nitrogen = e ∧
    (toSensorData m e).phosphorus = e ∧
    (toSensorData m e).potassium = e ∧
    (toSensorData m e).pH = 0 ∧
    bytesToSensorData m e = toSensorData m e := by
  refine ⟨?_, rfl, rfl, rfl, rfl, rfl, rfl, rfl⟩
  simp [decodePipelineV1, parsePayload, getUint8, toSensorData, Except.map]

/-- C4 witness: the spec's concrete scenario, payload bytes [42, 17]. -/
theorem c4_witness :
    decodePipelineV1 [42, 17] = .ok (toSensorData 42 17) ∧
    toSensorData 42 17 =
      { pH := 0, moisture := 42, tds := 17, nitrogen := 17,
        phosphorus := 17, potassium := 17 } :=
  ⟨(c4_theorem 42 17 (by decide) (by decide)).1, rfl⟩

/-- C9: the two variants' decode pipelines agree on every buffer of length
exactly 2. -/
theorem c9_theorem (bytes : List Nat) (h : bytes.length = 2) :
    decodePipelineV1 bytes = decodePipelineV2 bytes := by
  simp [decodePipelineV1, decodePipelineV2, parsePayload, parse2Bytes, h,
    toSensorData, bytesToSensorData]

/-- C9 witness: the two pipelines evaluated at the concrete buffer
[42, 17] through `c9_theorem`. -/
theorem c9_witness :
    decodePipelineV1 [42, 17] = decodePipelineV2 [42, 17] :=
  c9_theorem [42, 17] rfl

end AgriCore

namespace AgriCore

theorem v1Inv_init : V1Inv V1State.init := by
  simp [V1Inv, V1State.init]

theorem v1Inv_step (s : V1State) (e : Ev) (h : V1Inv s) :
    V1Inv (step1 s e) := by
  rcases s with ⟨hr, ta, co, d, rc, jc, st⟩
  cases st with
  | none =>
      obtain ⟨h1, h2, h3, h4, h5, h6⟩ := h
      subst h1 h2 h3 h4 h5 h6
      cases e with
      | timerFire => simp [step1, cleanup1, reject1, V1Inv]
      | notify v =>
          cases v with
          | none => simp [step1, V1Inv]
          | some bytes =>
              simp only [step1, if_true]
              cases hp : parsePayload bytes with
              | ok p => simp [cleanup1, resolve1, V1Inv]
              | error err => simp [cleanup1, reject1, V1Inv]
  | some r =>
      obtain ⟨h1, h2, h3, h4, h5⟩ := h
      subst h1 h2 h3 h4
      cases e with
      | timerFire => simp [step1, V1Inv, h5]
      | notify v => simp [step1, V1Inv, h5]

theorem v1Inv_foldl (events : List Ev) (s : V1State) (h : V1Inv s) :
    V1Inv (events.foldl step1 s) := by
  induction events generalizing s with
  | nil => exact h
  | cons e es ih => exact ih _ (v1Inv_step s e h)

theorem v1Inv_run (events : List Ev) : V1Inv (run1 events) :=
  v1Inv_foldl events V1State.init v1Inv_init

/-- Once the notify-only executor has settled, every further event
dispatch leaves the state untouched (the listener is gone and the timer is
dead, so both callbacks are inert). -/
theorem step1_settled_frozen (s : V1State) (e : Ev) (h : V1Inv s)
    (hs : s.settled.isSome = true) : step1 s e = s := by
  rcases s with ⟨hr, ta, co, d, rc, jc, st⟩
  cases st with
  | none => simp at hs
  | some r =>
      obtain ⟨h1, h2, h3, h4, h5⟩ := h
      subst h1 h2
      cases e with
      | timerFire => simp [step1]
      | notify v => simp [step1]

theorem v1_foldl_frozen (extra : List Ev) (s : V1State) (h : V1Inv s)
    (hs : s.settled.isSome = true) : extra.foldl step1 s = s := by
  induction extra with
  | nil => rfl
  | cons e es ih =>
      simp only [List.foldl_cons, step1_settled_frozen s e h hs]
      exact ih

theorem run1_append_frozen (events extra : List Ev)
    (h : (run1 events).settled.isSome = true) :
    run1 (events ++ extra) = run1 events := by
  unfold run1
  rw [List.foldl_append]
  exact v1_foldl_frozen extra _ (v1Inv_run events) h

/-- Dispatching the timer against any reachable executor state leaves the
promise settled: either it settles it now, or it was already settled. -/
theorem step1_timer_settles (s : V1State) (h : V1Inv s) :
    ((step1 s .timerFire).settled).isSome = true := by
  rcases s with ⟨hr, ta, co, d, rc, jc, st⟩
  cases st with
  | none =>
      obtain ⟨h1, h2, h3, h4, h5, h6⟩ := h
      subst h2 h3
      simp [step1, reject1, cleanup1]
  | some r =>
      obtain ⟨h1, h2, h3, h4, h5⟩ := h
      subst h2
      simp [step1]

theorem v1_foldl_timer_settles (events : List Ev) (s : V1State)
    (hInv : V1Inv s) (hmem : Ev.timerFire ∈ events) :
    ((events.foldl step1 s).settled).isSome = true := by
  induction events generalizing s with
  | nil => cases hmem
  | cons e es ih =>
      simp only [List.foldl_cons]
      rcases List.mem_cons.mp hmem with he | he
      · cases he
        have h1 : V1Inv (step1 s .timerFire) := v1Inv_step s _ hInv
        have h2 : ((step1 s .timerFire).settled).isSome = true :=
          step1_timer_settles s hInv
        rw [v1_foldl_frozen es _ h1 h2]
        exact h2
      · exact ih (step1 s e) (v1Inv_step s e hInv) he

theorem run1_timer_settles (events : List Ev) (h : Ev.timerFire ∈ events) :
    ((run1 events).settled).isSome = true :=
  v1_foldl_timer_settles events V1State.init v1Inv_init h

/-- An empty-value notification is a strict no-op for the notify-only
executor (`if (!ch.value) return;`). -/
theorem step1_notify_none (s : V1State) : step1 s (Ev.notify none) = s := by
  rcases s with ⟨hr, ta, co, d, rc, jc, st⟩
  cases hr <;> simp [step1]

theorem run1_notify_none (pre post : List Ev) :
    run1 (pre ++ Ev.notify none :: post) = run1 (pre ++ post) := by
  unfold run1
  rw [List.foldl_append, List.foldl_append, List.foldl_cons, step1_notify_none]

end AgriCore

namespace AgriCore

/-- Once `Promise.race` has settled, no later dispatch changes the winner:
a late notification at most resolves the already-lost `notifPromise`, and
a late timer firing at most resolves the already-lost `timeoutPromise`. -/
theorem step2_winner_frozen (s : V2Race) (e : Ev)
    (h : s.winner.isSome = true) : (step2 s e).winner = s.winner := by
  rcases s with ⟨hr, ns, ts, w, runs, sw⟩
  cases w with
  | none => simp at h
  | some wv =>
      cases e with
      | timerFire => cases ts <;> simp [step2, settleRace]
      | notify v =>
          cases v with
          | none => cases hr <;> simp [step2]
          | some bytes =>
              cases hr with
              | false => simp [step2]
              | true =>
                  cases hp : parse2Bytes bytes with
                  | ok p => cases ns <;> simp [step2, settleRace, hp]
                  | error err => simp [step2, hp]

theorem v2_foldl_winner_frozen (l : List Ev) (s : V2Race)
    (h : s.winner.isSome = true) : (l.foldl step2 s).winner = s.winner := by
  induction l generalizing s with
  | nil => rfl
  | cons e es ih =>
      simp only [List.foldl_cons]
      rw [ih (step2 s e) (by rw [step2_winner_frozen s e h]; exact h)]
      exact step2_winner_frozen s e h

theorem v2Inv_init : V2Inv V2Race.init := by
  simp [V2Inv, V2Race.init]

theorem v2Inv_step (s : V2Race) (e : Ev) (h : V2Inv s) :
    V2Inv (step2 s e) := by
  rcases s with ⟨hr, ns, ts, w, runs, sw⟩
  cases e with
  | timerFire =>
      cases ts with
      | true => simpa [step2] using h
      | false =>
          intro _
          cases w <;> simp [step2, settleRace]
  | notify v =>
      cases hr with
      | false => simpa [step2] using h
      | true =>
          cases v with
          | none => simpa [step2] using h
          | some bytes =>
              cases hp : parse2Bytes bytes with
              | error err => simpa [step2, hp] using h
              | ok p =>
                  cases ns with
                  | some d0 => simpa [step2, hp] using h
                  | none =>
                      cases w with
                      | some wv => simpa [step2, hp, settleRace] using h
                      | none => intro hts; simp [step2, hp, settleRace]

theorem step2_timer_isSome (s : V2Race) (h : V2Inv s) :
    ((step2 s Ev.timerFire).winner).isSome = true := by
  rcases s with ⟨hr, ns, ts, w, runs, sw⟩
  cases ts with
  | true => simpa [step2] using h rfl
  | false => cases w <;> simp [step2, settleRace]

theorem v2_foldl_timer_winner (events : List Ev) (s : V2Race)
    (hInv : V2Inv s) (hmem : Ev.timerFire ∈ events) :
    ((events.foldl step2 s).winner).isSome = true := by
  induction events generalizing s with
  | nil => cases hmem
  | cons e es ih =>
      simp only [List.foldl_cons]
      rcases List.mem_cons.mp hmem with he | he
      · cases he
        have h2 : ((step2 s Ev.timerFire).winner).isSome = true :=
          step2_timer_isSome s hInv
        rw [v2_foldl_winner_frozen es _ h2]
        exact h2
      · exact ih (step2 s e) (v2Inv_step s e hInv) he

theorem run2_timer_winner (events : List Ev) (h : Ev.timerFire ∈ events) :
    ((run2 events).winner).isSome = true :=
  v2_foldl_timer_winner events V2Race.init v2Inv_init h

theorem run2_append_winner_frozen (events extra : List Ev)
    (h : ((run2 events).winner).isSome = true) :
    (run2 (events ++ extra)).winner = (run2 events).winner := by
  unfold run2
  rw [List.foldl_append]
  exact v2_foldl_winner_frozen extra _ h

/-- A run of events that are all empty-value notifications leaves the
fallback race fully pending. -/
theorem v2_quiet_foldl (l : List Ev) (s : V2Race)
    (h1 : s.handlerRegistered = true) (h2 : s.notifSettled = none)
    (h3 : s.timeoutSettled = false) (h4 : s.winner = none)
    (hl : ∀ e ∈ l, e = Ev.notify none) :
    (l.foldl step2 s).handlerRegistered = true ∧
    (l.foldl step2 s).notifSettled = none ∧
    (l.foldl step2 s).timeoutSettled = false ∧
    (l.foldl step2 s).winner = none := by
  induction l generalizing s with
  | nil => exact ⟨h1, h2, h3, h4⟩
  | cons e es ih =>
      have he : e = Ev.notify none := hl e (List.mem_cons_self e es)
      subst he
      simp only [List.foldl_cons]
      have hstep : step2 s (Ev.notify none) =
          { s with handlerRuns := s.handlerRuns + 1 } := by
        rcases s with ⟨hr, ns, ts, w, runs, sw⟩
        cases hr with
        | true => simp [step2]
        | false => simp at h1
      rw [hstep]
      exact ih _ h1 h2 h3 h4 (fun e hme => hl e (List.mem_cons_of_mem _ hme))

/-- A run without timer firings in which every non-empty notification is
undecodable settles neither promise: the race stays pending (decode errors
thrown in the listener are swallowed and settle nothing). -/
theorem v2_nosettle_foldl (l : List Ev) (s : V2Race)
    (h2 : s.notifSettled = none) (h3 : s.timeoutSettled = false)
    (h4 : s.winner = none)
    (hl : ∀ b, Ev.notify (some b) ∈ l → b.length < 2)
    (ht : Ev.timerFire ∉ l) :
    (l.foldl step2 s).notifSettled = none ∧
    (l.foldl step2 s).timeoutSettled = false ∧
    (l.foldl step2 s).winner = none := by
  induction l generalizing s with
  | nil => exact ⟨h2, h3, h4⟩
  | cons e es ih =>
      simp only [List.foldl_cons]
      have hstep : (step2 s e).notifSettled = s.notifSettled ∧
          (step2 s e).timeoutSettled = s.timeoutSettled ∧
          (step2 s e).winner = s.winner := by
        cases e with
        | timerFire => exact absurd (List.mem_cons_self _ _) ht
        | notify v =>
            rcases s with ⟨hr, ns, ts, w, runs, sw⟩
            cases hr with
            | false => simp [step2]
            | true =>
                cases v with
                | none => simp [step2]
                | some bytes =>
                    have hb : bytes.length < 2 :=
                      hl bytes (List.mem_cons_self _ _)
                    have hp : parse2Bytes bytes =
                        .error (.invalidPayload bytes.length) := by
                      simp [parse2Bytes, hb]
                    simp [step2, hp]
      obtain ⟨e1, e2, e3⟩ := hstep
      exact ih (step2 s e) (by rw [e1]; exact h2) (by rw [e2]; exact h3)
        (by rw [e3]; exact h4)
        (fun b hb => hl b (List.mem_cons_of_mem _ hb))
        (fun hmem => ht (List.mem_cons_of_mem _ hmem))

/-- A decodable notification arriving while the race is fully pending
settles it with the decoded value. -/
theorem step2_valid_notify (s : V2Race) (bytes : List Nat)
    (h1 : s.handlerRegistered = true) (h2 : s.notifSettled = none)
    (h4 : s.winner = none) (hb : 2 ≤ bytes.length) :
    (step2 s (Ev.notify (some bytes))).winner =
      some (.value (bytesToSensorData (getUint8 bytes 0) (getUint8 bytes 1))) := by
  rcases s with ⟨hr, ns, ts, w, runs, sw⟩
  have hp : parse2Bytes bytes = .ok (getUint8 bytes 0, getUint8 bytes 1) := by
    simp [parse2Bytes, Nat.not_lt.mpr hb]
  simp only at h1 h2 h4
  subst h1 h2 h4
  simp [step2, hp, settleRace]

/-- The timer firing while the race is pending settles it as a timeout. -/
theorem step2_timer_wins (s : V2Race) (h3 : s.timeoutSettled = false)
    (h4 : s.winner = none) :
    (step2 s Ev.timerFire).winner = some .timedOut := by
  rcases s with ⟨hr, ns, ts, w, runs, sw⟩
  simp only at h3 h4
  subst h3 h4
  simp [step2, settleRace]

theorem step2_obs_congr (s t : V2Race) (h : s.obs = t.obs) (e : Ev) :
    (step2 s e).obs = (step2 t e).obs := by
  rcases s with ⟨hr, ns, ts, w, runs, sw⟩
  rcases t with ⟨hr2, ns2, ts2, w2, runs2, sw2⟩
  simp only [V2Race.obs, V2Obs.mk.injEq] at h
  obtain ⟨e1, e2, e3, e4, e5⟩ := h
  subst e1 e2 e3 e4 e5
  cases e with
  | timerFire => cases ts <;> cases w <;> simp [step2, settleRace, V2Race.obs]
  | notify v =>
      cases hr with
      | false => simp [step2, V2Race.obs]
      | true =>
          cases v with
          | none => simp [step2, V2Race.obs]
          | some bytes =>
              cases hp : parse2Bytes bytes with
              | ok p =>
                  cases ns <;> cases w <;>
                    simp [step2, hp, settleRace, V2Race.obs]
              | error err => simp [step2, hp, V2Race.obs]

/-- An empty-value notification changes nothing but the run counter. -/
theorem step2_notify_none_obs (s : V2Race) :
    (step2 s (Ev.notify none)).obs = s.obs := by
  rcases s with ⟨hr, ns, ts, w, runs, sw⟩
  cases hr <;> simp [step2, V2Race.obs]

theorem v2_foldl_obs_congr (l : List Ev) (s t : V2Race) (h : s.obs = t.obs) :
    (l.foldl step2 s).obs = (l.foldl step2 t).obs := by
  induction l generalizing s t with
  | nil => exact h
  | cons e es ih => exact ih _ _ (step2_obs_congr s t h e)

theorem run2_notify_none_obs (pre post : List Ev) :
    (run2 (pre ++ Ev.notify none :: post)).obs = (run2 (pre ++ post)).obs := by
  unfold run2
  rw [List.foldl_append, List.foldl_append, List.foldl_cons]
  exact v2_foldl_obs_congr post _ _ (step2_notify_none_obs _)

theorem raceOutcome_winner_congr (s t : V2Race) (h : s.winner = t.winner)
    (rr : Except BTError (List Nat)) :
    (raceOutcome s rr).result = (raceOutcome t rr).result ∧
    (raceOutcome s rr).reads = (raceOutcome t rr).reads ∧
    (raceOutcome s rr).disconnects = (raceOutcome t rr).disconnects ∧
    (raceOutcome s rr).connected = (raceOutcome t rr).connected := by
  unfold raceOutcome
  rw [h]
  cases hw : t.winner with
  | none => simp
  | some wv => cases wv <;> simp

theorem raceOutcome_value (s : V2Race) (d : SensorData)
    (h : s.winner = some (.value d)) (rr : Except BTError (List Nat)) :
    (raceOutcome s rr).result = some (.ok d) ∧
    (raceOutcome s rr).reads = 0 := by
  simp [raceOutcome, h]

theorem raceOutcome_timedOut (s : V2Race) (h : s.winner = some .timedOut)
    (rr : Except BTError (List Nat)) :
    (raceOutcome s rr).result = some (fallbackRead rr) ∧
    (raceOutcome s rr).reads = 1 ∧
    (raceOutcome s rr).connected = false ∧
    (raceOutcome s rr).disconnects = 1 := by
  simp [raceOutcome, h]

end AgriCore

namespace AgriCore

theorem v1Inv_calls (s : V1State) (h : V1Inv s) :
    s.resolveCalls + s.rejectCalls ≤ 1 := by
  rcases s with ⟨hr, ta, co, d, rc, jc, st⟩
  cases st with
  | none =>
      obtain ⟨h1, h2, h3, h4, h5, h6⟩ := h
      subst h5 h6
      simp
  | some r =>
      obtain ⟨h1, h2, h3, h4, h5⟩ := h
      exact h5.le

theorem raceOutcome_teardown (s : V2Race) (rr : Except BTError (List Nat)) :
    (((raceOutcome s rr).result).isSome = true →
      (raceOutcome s rr).connected = false ∧
      (raceOutcome s rr).disconnects = 1) ∧
    (raceOutcome s rr).disconnects ≤ 1 := by
  cases hw : s.winner with
  | none => simp [raceOutcome, hw]
  | some wv => cases wv <;> simp [raceOutcome, hw]

/-- C1 counterexample: in the fallback variant the claimed loser-cleanup
does not happen.  After the timer wins (good transport, only the timer
fires), the notification handler is STILL registered; a late notification
after the timer's win still invokes the handler once; and after a
notification wins, the timer is not cancelled — its later firing still
settles `timeoutPromise`. -/
theorem c1_counterexample :
    (connectToESP32_v2 ⟨true, true, true, true, true, true, [Ev.timerFire],
        .ok [7, 8]⟩).handlerRegistered = true ∧
    (connectToESP32_v2 ⟨true, true, true, true, true, true,
        [Ev.timerFire, Ev.notify (some [7, 8])],
        .ok [7, 8]⟩).handlerRuns = 1 ∧
    (run2 [Ev.notify (some [7, 8]), Ev.timerFire]).timeoutSettled = true :=
  ⟨rfl, rfl, rfl⟩

/-- C1 (amended): at-most-one resolution holds in both variants, and the
loser is inert with respect to the outcome.  Notify-only variant: the
executor calls `resolve`/`reject` at most once in total; once settled,
further dispatches change nothing; a scheduled timer firing guarantees a
settlement.  Fallback variant: once `Promise.race` has a winner no
dispatch changes it (so a late notification or timer firing cannot affect
the result), and a scheduled timer firing guarantees a winner.  The
notify-only `cleanup` also unregisters the handler and cancels the timer;
in the fallback variant the handler may stay registered after the timer
wins and the timer keeps running after a notification wins (see the
counterexample), but these leftovers cannot change the settled outcome. -/
theorem c1_theorem :
    (∀ events : List Ev,
      (run1 events).resolveCalls + (run1 events).rejectCalls ≤ 1) ∧
    (∀ events extra : List Ev, ((run1 events).settled).isSome = true →
      run1 (events ++ extra) = run1 events) ∧
    (∀ events : List Ev, Ev.timerFire ∈ events →
      ((run1 events).settled).isSome = true) ∧
    (∀ (s : V2Race) (e : Ev), s.winner.isSome = true →
      (step2 s e).winner = s.winner) ∧
    (∀ events extra : List Ev, ((run2 events).winner).isSome = true →
      (run2 (events ++ extra)).winner = (run2 events).winner) ∧
    (∀ events : List Ev, Ev.timerFire ∈ events →
      ((run2 events).winner).isSome = true) :=
  ⟨fun events => v1Inv_calls _ (v1Inv_run events),
   run1_append_frozen, run1_timer_settles, step2_winner_frozen,
   run2_append_winner_frozen, run2_timer_winner⟩

/-- C1 witness: the amended theorem applied to concrete schedules. -/
theorem c1_witness :
    run1 ([Ev.timerFire] ++ [Ev.notify (some [1, 2])]) = run1 [Ev.timerFire] ∧
    ((run1 [Ev.timerFire]).settled).isSome = true ∧
    (run2 ([Ev.timerFire] ++ [Ev.notify (some [1, 2])])).winner =
      (run2 [Ev.timerFire]).winner ∧
    ((run2 [Ev.timerFire]).winner).isSome = true ∧
    (step2 (run2 [Ev.timerFire]) (Ev.notify (some [1, 2]))).winner =
      (run2 [Ev.timerFire]).winner :=
  ⟨c1_theorem.2.1 [Ev.timerFire] [Ev.notify (some [1, 2])] (by decide),
   c1_theorem.2.2.1 [Ev.timerFire] (by decide),
   c1_theorem.2.2.2.2.1 [Ev.timerFire] [Ev.notify (some [1, 2])] (by decide),
   c1_theorem.2.2.2.2.2 [Ev.timerFire] (by decide),
   c1_theorem.2.2.2.1 (run2 [Ev.timerFire]) (Ev.notify (some [1, 2])) (by decide)⟩

/-- C2: in the fallback variant with a good transport, if a decodable
notification arrives before the timer fires (with no earlier non-empty
notification), the call returns its decoded payload and `readValue` is
never invoked; if the timer fires first (every earlier non-empty
notification being undecodable, hence settling nothing), `readValue` runs
exactly once and its outcome, decoded, is the call's result. -/
theorem c2_theorem :
    (∀ (pre post : List Ev) (bytes : List Nat)
        (rr : Except BTError (List Nat)),
      Ev.timerFire ∉ pre → (∀ b, Ev.notify (some b) ∉ pre) →
      2 ≤ bytes.length →
      (connectToESP32_v2 ⟨true, true, true, true, true, true,
          pre ++ Ev.notify (some bytes) :: post, rr⟩).result =
        some (.ok (bytesToSensorData (getUint8 bytes 0) (getUint8 bytes 1))) ∧
      (connectToESP32_v2 ⟨true, true, true, true, true, true,
          pre ++ Ev.notify (some bytes) :: post, rr⟩).reads = 0) ∧
    (∀ (pre post : List Ev) (rr : Except BTError (List Nat)),
      Ev.timerFire ∉ pre → (∀ b, Ev.notify (some b) ∈ pre → b.length < 2) →
      (connectToESP32_v2 ⟨true, true, true, true, true, true,
          pre ++ Ev.timerFire :: post, rr⟩).result =
        some (fallbackRead rr) ∧
      (connectToESP32_v2 ⟨true, true, true, true, true, true,
          pre ++ Ev.timerFire :: post, rr⟩).reads = 1) := by
  constructor
  · intro pre post bytes rr hT hN hb
    have hq : ∀ e ∈ pre, e = Ev.notify none := by
      intro e he
      cases e with
      | timerFire => exact absurd he hT
      | notify v =>
          cases v with
          | none => rfl
          | some b => exact absurd he (hN b)
    have hA := v2_quiet_foldl pre V2Race.init rfl rfl rfl rfl hq
    have hstep := step2_valid_notify (pre.foldl step2 V2Race.init) bytes
      hA.1 hA.2.1 hA.2.2.2 hb
    have hwin : (run2 (pre ++ Ev.notify (some bytes) :: post)).winner =
        some (.value (bytesToSensorData (getUint8 bytes 0) (getUint8 bytes 1))) := by
      unfold run2
      rw [List.foldl_append, List.foldl_cons]
      rw [v2_foldl_winner_frozen post _ (by rw [hstep]; rfl)]
      exact hstep
    have hout := raceOutcome_value _ _ hwin rr
    have hred : connectToESP32_v2 ⟨true, true, true, true, true, true,
        pre ++ Ev.notify (some bytes) :: post, rr⟩ =
        raceOutcome (run2 (pre ++ Ev.notify (some bytes) :: post)) rr := rfl
    rw [hred]
    exact hout
  · intro pre post rr hT hpre
    have hB := v2_nosettle_foldl pre V2Race.init rfl rfl rfl hpre hT
    have hstep := step2_timer_wins (pre.foldl step2 V2Race.init) hB.2.1 hB.2.2
    have hwin : (run2 (pre ++ Ev.timerFire :: post)).winner =
        some .timedOut := by
      unfold run2
      rw [List.foldl_append, List.foldl_cons]
      rw [v2_foldl_winner_frozen post _ (by rw [hstep]; rfl)]
      exact hstep
    have hout := raceOutcome_timedOut _ hwin rr
    have hred : connectToESP32_v2 ⟨true, true, true, true, true, true,
        pre ++ Ev.timerFire :: post, rr⟩ =
        raceOutcome (run2 (pre ++ Ev.timerFire :: post)) rr := rfl
    rw [hred]
    exact ⟨hout.1, hout.2.1⟩

/-- C2 witness: a notification-first schedule (an empty-value event, then
the payload [42, 17], then the timer) returns the decoded notification
with no read; a timeout-first schedule (one undecodable notification,
then the timer) performs exactly one fallback read. -/
theorem c2_witness :
    ((connectToESP32_v2 ⟨true, true, true, true, true, true,
        [Ev.notify none] ++ Ev.notify (some [42, 17]) :: [Ev.timerFire],
        .ok [1, 2]⟩).result =
      some (.ok (bytesToSensorData (getUint8 [42, 17] 0) (getUint8 [42, 17] 1))) ∧
     (connectToESP32_v2 ⟨true, true, true, true, true, true,
        [Ev.notify none] ++ Ev.notify (some [42, 17]) :: [Ev.timerFire],
        .ok [1, 2]⟩).reads = 0) ∧
    ((connectToESP32_v2 ⟨true, true, true, true, true, true,
        [Ev.notify (some [9])] ++ Ev.timerFire :: [],
        .ok [3, 4]⟩).result = some (fallbackRead (.ok [3, 4])) ∧
     (connectToESP32_v2 ⟨true, true, true, true, true, true,
        [Ev.notify (some [9])] ++ Ev.timerFire :: [],
        .ok [3, 4]⟩).reads = 1) :=
  ⟨c2_theorem.1 [Ev.notify none] [Ev.timerFire] [42, 17] (.ok [1, 2])
      (by decide) (by intro b hb; simp at hb) (by decide),
   c2_theorem.2 [Ev.notify (some [9])] [] (.ok [3, 4])
      (by decide) (by intro b hb; simp at hb; subst hb; decide)⟩

/-- C5 counterexample: in the notify-only variant a transport error during
service discovery (after the GATT link came up) terminates the call with
the link STILL connected and `disconnect` never invoked — the claimed
"disconnect iff connected" fails for this terminal outcome. -/
theorem c5_counterexample :
    (connectToESP32_v1 ⟨true, true, true, false, true, true, []⟩).result =
      some (.error (.transport .service)) ∧
    (connectToESP32_v1 ⟨true, true, true, false, true, true, []⟩).connected =
      true ∧
    (connectToESP32_v1 ⟨true, true, true, false, true, true, []⟩).disconnects =
      0 :=
  ⟨rfl, rfl, rfl⟩

/-- C5 (amended): disconnect is invoked at most once in both variants.
In the fallback variant, on every terminal outcome the link ends
disconnected and `disconnect` ran exactly once iff the link ever came up
(the `try`/`finally` covers every stage from service discovery on).  In
the notify-only variant the same guarantee holds for every terminal
outcome of the racing phase (success, timeout, decode failure) — but not
for transport errors between connect and subscribe (see the
counterexample). -/
theorem c5_theorem :
    (∀ sc : Scenario2,
      (((connectToESP32_v2 sc).result).isSome = true →
        (connectToESP32_v2 sc).connected = false ∧
        (connectToESP32_v2 sc).disconnects =
          (if sc.btAvailable && sc.requestOk && sc.connectOk then 1 else 0)) ∧
      (connectToESP32_v2 sc).disconnects ≤ 1) ∧
    (∀ sc : Scenario1, goodTransport1 sc →
      (((connectToESP32_v1 sc).result).isSome = true →
        (connectToESP32_v1 sc).connected = false ∧
        (connectToESP32_v1 sc).disconnects = 1) ∧
      (connectToESP32_v1 sc).disconnects ≤ 1) := by
  constructor
  · intro sc
    rcases sc with ⟨a, b, c, d, e, f, events, rr⟩
    cases a with
    | false => simp [connectToESP32_v2]
    | true =>
      cases b with
      | false => simp [connectToESP32_v2]
      | true =>
        cases c with
        | false => simp [connectToESP32_v2]
        | true =>
          cases d with
          | false => simp [connectToESP32_v2]
          | true =>
            cases e with
            | false => simp [connectToESP32_v2]
            | true =>
              cases f with
              | false => simp [connectToESP32_v2]
              | true =>
                have h := raceOutcome_teardown (run2 events) rr
                simpa [connectToESP32_v2] using h
  · intro sc hg
    rcases sc with ⟨a, b, c, d, e, f, events⟩
    obtain ⟨ha, hb, hc, hd, he, hf⟩ := hg
    subst ha hb hc hd he hf
    have h := v1Inv_run events
    rcases hrun : run1 events with ⟨hr, ta, co, dd, rc, jc, st⟩
    rw [hrun] at h
    have hres : connectToESP32_v1 ⟨true, true, true, true, true, true, events⟩ =
        { result := st, connected := co, disconnects := dd,
          resolveCalls := rc, rejectCalls := jc } := by
      simp [connectToESP32_v1, hrun]
    rw [hres]
    cases st with
    | none =>
        obtain ⟨h1, h2, h3, h4, h5, h6⟩ := h
        subst h4
        exact ⟨fun hs => by simp at hs, by simp⟩
    | some r =>
        obtain ⟨h1, h2, h3, h4, h5⟩ := h
        subst h3 h4
        exact ⟨fun _ => ⟨rfl, rfl⟩, by simp⟩

/-- C5 witness: the amended theorem applied to a concrete good-transport
fallback scenario (timer fires, fallback read succeeds) and a concrete
good-transport notify-only scenario (valid notification). -/
theorem c5_witness :
    ((((connectToESP32_v2 ⟨true, true, true, true, true, true, [Ev.timerFire],
          .ok [1, 2]⟩).result).isSome = true →
        (connectToESP32_v2 ⟨true, true, true, true, true, true, [Ev.timerFire],
          .ok [1, 2]⟩).connected = false ∧
        (connectToESP32_v2 ⟨true, true, true, true, true, true, [Ev.timerFire],
          .ok [1, 2]⟩).disconnects = (if true && true && true then 1 else 0)) ∧
      (connectToESP32_v2 ⟨true, true, true, true, true, true, [Ev.timerFire],
          .ok [1, 2]⟩).disconnects ≤ 1) ∧
    ((((connectToESP32_v1 ⟨true, true, true, true, true, true,
          [Ev.notify (some [5, 6])]⟩).result).isSome = true →
        (connectToESP32_v1 ⟨true, true, true, true, true, true,
          [Ev.notify (some [5, 6])]⟩).connected = false ∧
        (connectToESP32_v1 ⟨true, true, true, true, true, true,
          [Ev.notify (some [5, 6])]⟩).disconnects = 1) ∧
      (connectToESP32_v1 ⟨true, true, true, true, true, true,
          [Ev.notify (some [5, 6])]⟩).disconnects ≤ 1) :=
  ⟨c5_theorem.1 ⟨true, true, true, true, true, true, [Ev.timerFire], .ok [1, 2]⟩,
   c5_theorem.2 ⟨true, true, true, true, true, true, [Ev.notify (some [5, 6])]⟩
     ⟨rfl, rfl, rfl, rfl, rfl, rfl⟩⟩

/-- C6, code evaluated at the failing input: a 1-byte notification before
the timeout.  In the fallback variant the handler's rethrow is swallowed
(`swallowed = 1`), the call does NOT fail with an invalid-payload error —
it proceeds to the timeout and returns the fallback read's value.  The
notify-only variant behaves as the claim demands: it rejects with the
invalid-payload error after tearing down (one disconnect). -/
theorem c6_theorem :
    (connectToESP32_v2 ⟨true, true, true, true, true, true,
        [Ev.notify (some [9]), Ev.timerFire], .ok [1, 2]⟩).result =
      some (.ok (bytesToSensorData 1 2)) ∧
    (connectToESP32_v2 ⟨true, true, true, true, true, true,
        [Ev.notify (some [9]), Ev.timerFire], .ok [1, 2]⟩).swallowed = 1 ∧
    (connectToESP32_v1 ⟨true, true, true, true, true, true,
        [Ev.notify (some [9])]⟩).result =
      some (.error (.invalidPayload 1)) ∧
    (connectToESP32_v1 ⟨true, true, true, true, true, true,
        [Ev.notify (some [9])]⟩).disconnects = 1 :=
  ⟨rfl, rfl, rfl, rfl⟩

/-- C7 counterexample: timer wins, the fallback `readValue` fails with a
transport read error; the call fails with that error itself — which is
not the spec's `AcquisitionTimeout` wrapper — rather than with
`AcquisitionTimeout` carrying it as cause. -/
theorem c7_counterexample :
    (connectToESP32_v2 ⟨true, true, true, true, true, true, [Ev.timerFire],
        .error (.transport .read)⟩).result =
      some (.error (.transport .read)) ∧
    BTError.isAcquisitionTimeout (.transport .read) = false :=
  ⟨rfl, rfl⟩

/-- C7 (amended): when the timer wins the race and the fallback
`readValue` fails, the call fails with the underlying pull error itself,
propagated unwrapped, and teardown has run (link down, one disconnect). -/
theorem c7_theorem (pre post : List Ev) (e : BTError)
    (hT : Ev.timerFire ∉ pre)
    (hpre : ∀ b, Ev.notify (some b) ∈ pre → b.length < 2) :
    (connectToESP32_v2 ⟨true, true, true, true, true, true,
        pre ++ Ev.timerFire :: post, .error e⟩).result = some (.error e) ∧
    (connectToESP32_v2 ⟨true, true, true, true, true, true,
        pre ++ Ev.timerFire :: post, .error e⟩).connected = false ∧
    (connectToESP32_v2 ⟨true, true, true, true, true, true,
        pre ++ Ev.timerFire :: post, .error e⟩).disconnects = 1 := by
  have hB := v2_nosettle_foldl pre V2Race.init rfl rfl rfl hpre hT
  have hstep := step2_timer_wins (pre.foldl step2 V2Race.init) hB.2.1 hB.2.2
  have hwin : (run2 (pre ++ Ev.timerFire :: post)).winner = some .timedOut := by
    unfold run2
    rw [List.foldl_append, List.foldl_cons]
    rw [v2_foldl_winner_frozen post _ (by rw [hstep]; rfl)]
    exact hstep
  have hout := raceOutcome_timedOut _ hwin (.error e)
  have hred : connectToESP32_v2 ⟨true, true, true, true, true, true,
      pre ++ Ev.timerFire :: post, .error e⟩ =
      raceOutcome (run2 (pre ++ Ev.timerFire :: post)) (.error e) := rfl
  rw [hred]
  exact ⟨hout.1, hout.2.2.1, hout.2.2.2⟩

/-- C7 witness: the amended theorem applied to the schedule in which only
the timer fires and the pull read fails with a subscribe-stage error. -/
theorem c7_witness :
    (connectToESP32_v2 ⟨true, true, true, true, true, true,
        [] ++ Ev.timerFire :: [], .error (.transport .subscribe)⟩).result =
      some (.error (.transport .subscribe)) ∧
    (connectToESP32_v2 ⟨true, true, true, true, true, true,
        [] ++ Ev.timerFire :: [], .error (.transport .subscribe)⟩).connected =
      false ∧
    (connectToESP32_v2 ⟨true, true, true, true, true, true,
        [] ++ Ev.timerFire :: [], .error (.transport .subscribe)⟩).disconnects =
      1 :=
  c7_theorem [] [] (.transport .subscribe) (by decide)
    (by intro b hb; simp at hb)

/-- C8: for the spec's concrete reading and context (rainy, kharif), the
engine returns exactly ["Rice", "Paddy"]; the earlier Wheat rule fails and
fails precisely on its weather constraint (the same reading and season
with sunny weather matches it); the Rice rule matches; and the result is
already determined by the first two rules — no later rule or the default
is consulted. -/
theorem c8_theorem :
    recommend cropRules defaultCropsEn scenarioReading "rainy" "kharif" =
      ["Rice", "Paddy"] ∧
    condMatches wheatRule.conditions scenarioReading "rainy" "kharif" = false ∧
    condMatches wheatRule.conditions scenarioReading "sunny" "kharif" = true ∧
    condMatches riceRule.conditions scenarioReading "rainy" "kharif" = true ∧
    recommend (cropRules.take 2) defaultCropsEn scenarioReading "rainy" "kharif" =
      ["Rice", "Paddy"] := by
  have hw : condMatches wheatRule.conditions scenarioReading "rainy" "kharif" =
      false := by
    norm_num [condMatches, wheatRule, scenarioReading]
    exact ⟨by decide, by decide⟩
  have hr : condMatches riceRule.conditions scenarioReading "rainy" "kharif" =
      true := by
    norm_num [condMatches, riceRule, scenarioReading]
  have hws : condMatches wheatRule.conditions scenarioReading "sunny" "kharif" =
      true := by
    norm_num [condMatches, wheatRule, scenarioReading]
  refine ⟨?_, hw, hws, hr, ?_⟩
  · simp [recommend, cropRules, List.find?, hw, hr]
    rfl
  · simp [recommend, cropRules, List.take, List.find?, hw, hr]
    rfl

/-- C10: an empty-value notification settles nothing and triggers no
teardown in either variant, and removing it from any schedule changes
nothing the caller can observe: the notify-only executor state is
literally unchanged, and the fallback call's result, read count,
disconnects and link state are unchanged — a later notification or the
timer still decides the outcome. -/
theorem c10_theorem :
    (∀ s : V1State, step1 s (Ev.notify none) = s) ∧
    (∀ (a b c d e f : Bool) (pre post : List Ev),
      connectToESP32_v1 ⟨a, b, c, d, e, f, pre ++ Ev.notify none :: post⟩ =
        connectToESP32_v1 ⟨a, b, c, d, e, f, pre ++ post⟩) ∧
    (∀ s : V2Race, (step2 s (Ev.notify none)).obs = s.obs) ∧
    (∀ (a b c d e f : Bool) (pre post : List Ev)
        (rr : Except BTError (List Nat)),
      (connectToESP32_v2 ⟨a, b, c, d, e, f, pre ++ Ev.notify none :: post,
          rr⟩).result =
        (connectToESP32_v2 ⟨a, b, c, d, e, f, pre ++ post, rr⟩).result ∧
      (connectToESP32_v2 ⟨a, b, c, d, e, f, pre ++ Ev.notify none :: post,
          rr⟩).reads =
        (connectToESP32_v2 ⟨a, b, c, d, e, f, pre ++ post, rr⟩).reads ∧
      (connectToESP32_v2 ⟨a, b, c, d, e, f, pre ++ Ev.notify none :: post,
          rr⟩).disconnects =
        (connectToESP32_v2 ⟨a, b, c, d, e, f, pre ++ post, rr⟩).disconnects ∧
      (connectToESP32_v2 ⟨a, b, c, d, e, f, pre ++ Ev.notify none :: post,
          rr⟩).connected =
        (connectToESP32_v2 ⟨a, b, c, d, e, f, pre ++ post, rr⟩).connected) := by
  refine ⟨step1_notify_none, ?_, step2_notify_none_obs, ?_⟩
  · intro a b c d e f pre post
    cases a <;> cases b <;> cases c <;> cases d <;> cases e <;> cases f <;>
      simp [connectToESP32_v1, run1_notify_none]
  · intro a b c d e f pre post rr
    have hobs := run2_notify_none_obs pre post
    have hw : (run2 (pre ++ Ev.notify none :: post)).winner =
        (run2 (pre ++ post)).winner := congrArg V2Obs.winner hobs
    have h := raceOutcome_winner_congr _ _ hw rr
    cases a <;> cases b <;> cases c <;> cases d <;> cases e <;> cases f <;>
      simp [connectToESP32_v2] <;>
      exact ⟨h.1, h.2.1, h.2.2.1, h.2.2.2⟩

end AgriCore
